import Mathlib

/-!
Shallow embedding of `excel_combiner.py` and verification of its
natural-language specification.

The script reads worksheets as 2-D grids of cell values (via pandas),
locates a tabular region by marker strings, slices and cleans it, and
concatenates all regions into one output table.  The embedding below
translates each Python function into a Lean definition over an explicit
grid model; pandas/dateutil behavior that the functions rely on (string
rendering of cells, NaN handling, column union on concat, day-first date
parsing) is modelled explicitly where the script depends on it.
-/

namespace ExcelCombiner

/-- A spreadsheet cell as pandas materializes it: a string, an integer, or
the missing value NaN.  Python renders these via `str(...)`: NaN renders as
the text `"nan"`. -/
inductive Cell where
  | str (s : String)
  | num (n : Int)
  | nan
  deriving DecidableEq, Repr

/-- Python's `str(cell)` as applied by the script to every cell it inspects. -/
def cellStr : Cell → String
  | .str s => s
  | .num n => toString n
  | .nan => "nan"

/-- A worksheet materialized as a rectangular grid (`pd.read_excel` with
`header=None`): `nrows` × `ncols`, with a total cell accessor mirroring
`df.iloc[r, c]`. -/
structure Grid where
  nrows : Nat
  ncols : Nat
  cell : Nat → Nat → Cell

/-- Build a grid from a list of rows; short rows are padded with NaN, which
is how pandas fills a ragged sheet. -/
def Grid.ofLists (rows : List (List Cell)) (width : Nat) : Grid where
  nrows := rows.length
  ncols := width
  cell r c := ((rows.getD r []).getD c Cell.nan)

/-! ### String primitives

The Python string operations the script uses (`strip`, `lower`,
`replace`, `split`, `in`, `int(...)` digits) are modelled directly on the
character list underlying a Lean `String`, matching Python's semantics on
the ASCII text the script manipulates. -/

/-- The whitespace characters `str.strip()` removes. -/
def isSpaceChar (c : Char) : Bool :=
  c == ' ' || c == '\t' || c == '\n' || c == '\r' || c == '\x0b' || c == '\x0c'

/-- Python's `s.strip()`. -/
def pyStrip (s : String) : String :=
  ⟨(((s.data.dropWhile isSpaceChar).reverse.dropWhile isSpaceChar).reverse)⟩

/-- Lowercase one ASCII character. -/
def lowerChar (c : Char) : Char :=
  if 'A' ≤ c && c ≤ 'Z' then Char.ofNat (c.toNat + 32) else c

/-- Python's `s.lower()` (on the ASCII text the script handles). -/
def pyLower (s : String) : String :=
  ⟨s.data.map lowerChar⟩

/-- Python's `s.replace(ch, '')` for a single-character pattern. -/
def removeChar (ch : Char) (s : String) : String :=
  ⟨s.data.filter (fun c => !(c == ch))⟩

/-- Python's `s.replace(a, b)` for single-character pattern and
replacement. -/
def replaceChar (a b : Char) (s : String) : String :=
  ⟨s.data.map (fun c => if c == a then b else c)⟩

/-- Substring test on character lists, mirroring Python's `in` on strings. -/
def infixOf (pat : List Char) : List Char → Bool
  | [] => pat.isEmpty
  | c :: rest => pat.isPrefixOf (c :: rest) || infixOf pat rest

/-- `containsSub pat s` models Python's `pat in s`. -/
def containsSub (pat s : String) : Bool :=
  infixOf pat.data s.data

/-- Decimal digit value of a character. -/
def digitVal (c : Char) : Option Nat :=
  if '0' ≤ c && c ≤ '9' then some (c.toNat - 48) else none

/-- Read a nonempty all-digit character list as a number. -/
def parseNatAux (acc : Nat) : List Char → Option Nat
  | [] => some acc
  | c :: rest =>
    match digitVal c with
    | some d => parseNatAux (acc * 10 + d) rest
    | none => none

/-- A purely numeric token's value, `none` for anything non-numeric. -/
def parseNatToken (s : String) : Option Nat :=
  match s.data with
  | [] => none
  | l => parseNatAux 0 l

/-- First index `j` in `[i, i+k)` (scanned in increasing order) where `f`
yields a value; models Python's `for idx in range(i, n)` loops that return
on the first hit.  Structural recursion on the remaining count `k`. -/
def scanFirst (f : Nat → Option β) (i : Nat) : Nat → Option β
  | 0 => none
  | k + 1 =>
    match f i with
    | some b => some b
    | none => scanFirst f (i + 1) k

/-- First index in `[i, n)` satisfying `p`, or `none`. -/
def findIdx (p : Nat → Bool) (i n : Nat) : Option Nat :=
  scanFirst (fun j => if p j then some j else none) i (n - i)

/-- The stateful loop of `find_last_data_row`: walks indices `i, i+1, ...`
(`k` of them), remembering the last index satisfying `p`; stops early at
the first non-satisfying index once some satisfying index was seen. -/
def scanLast (p : Nat → Bool) (i : Nat) (k : Nat) (last : Option Nat) : Option Nat :=
  match k with
  | 0 => last
  | k + 1 =>
    if p i then scanLast p (i + 1) k (some i)
    else
      match last with
      | some l => some l
      | none => scanLast p (i + 1) k none

/-! ### The locator functions (lines 33-91 of `excel_combiner.py`) -/

/-- `str(df.iloc[r, c]).strip() == 'Sl. No.'` — the header-marker test. -/
def isHeaderCell (g : Grid) (r c : Nat) : Bool :=
  (pyStrip (cellStr (g.cell r c))) == "Sl. No."

/-- `find_header_row` (lines 33-45): scan rows `0 .. min(20, nrows)-1`,
within each row all columns left to right, returning the first `(row, col)`
whose trimmed text equals `"Sl. No."`. -/
def find_header_row (g : Grid) : Option (Nat × Nat) :=
  scanFirst
    (fun r => (findIdx (fun c => isHeaderCell g r c) 0 g.ncols).map (fun c => (r, c)))
    0 (min 20 g.nrows)

/-- The inline end-column search of `process_sheet` (lines 110-115): first
column from `start_col` rightward whose header-row cell trims to `"Sample"`. -/
def find_sample_col (g : Grid) (header_row start_col : Nat) : Option Nat :=
  findIdx (fun c => (pyStrip (cellStr (g.cell header_row c))) == "Sample") start_col g.ncols

/-- Normalization of `find_total_row` (lines 57-59): strip, lowercase,
remove spaces and equals signs; then test for the substrings. -/
def totalMatch (cell : Cell) : Bool :=
  let v := removeChar '=' (removeChar ' ' (pyLower (pyStrip (cellStr cell))))
  containsSub "total" v || containsSub "summary" v

/-- Row test of `find_total_row`: some column in `[start_col, end_col]`
matches a terminator keyword. -/
def rowHasTotal (g : Grid) (r start_col end_col : Nat) : Bool :=
  (findIdx (fun c => totalMatch (g.cell r c)) start_col (end_col + 1)).isSome

/-- `find_total_row` (lines 48-64): first row after `start_row` with a
terminator keyword in the column span `[start_col, end_col]`. -/
def find_total_row (g : Grid) (start_row start_col end_col : Nat) : Option Nat :=
  findIdx (fun r => rowHasTotal g r start_col end_col) (start_row + 1) g.nrows

/-- Cell test of `find_last_data_row` (line 80): non-empty after strip and
not the text `'nan'` (case-insensitive). -/
def dataCell (cell : Cell) : Bool :=
  let v := pyStrip (cellStr cell)
  !(v == "") && !(pyLower v == "nan")

/-- Row test of `find_last_data_row`: some column in the span holds data. -/
def rowHasData (g : Grid) (r start_col end_col : Nat) : Bool :=
  (findIdx (fun c => dataCell (g.cell r c)) start_col (end_col + 1)).isSome

/-- `find_last_data_row` (lines 67-91): last row with data in the span,
stopping at the first blank row that follows a data row. -/
def find_last_data_row (g : Grid) (start_row start_col end_col : Nat) : Option Nat :=
  scanLast (fun r => rowHasData g r start_col end_col) (start_row + 1)
    (g.nrows - (start_row + 1)) none

/-! ### Date deriver (lines 8-30)

`convert_sheet_name_to_date` delegates to `dateutil.parser.parse(s,
dayfirst=True)`, an external library.  The parser is modelled here for the
input shapes the script's sheet names exercise: day-month-year token
triples (numeric or with a month name) and single tokens, where missing
components of a partial date are filled from the current date — which is
exactly dateutil's documented default behavior. -/

/-- A calendar date. -/
structure Date where
  year : Nat
  month : Nat
  day : Nat
  deriving DecidableEq, Repr

/-- dateutil's two-digit year expansion (century window around the present:
`00-49 ↦ 20xx`, `50-99 ↦ 19xx`). -/
def yearExpand (y : Nat) : Nat :=
  if y < 100 then (if y ≤ 49 then 2000 + y else 1900 + y) else y

/-- English month names and their three-letter abbreviations, lowercased,
as dateutil recognizes them. -/
def monthFromName (s : String) : Option Nat :=
  if s == "january" || s == "jan" then some 1
  else if s == "february" || s == "feb" then some 2
  else if s == "march" || s == "mar" then some 3
  else if s == "april" || s == "apr" then some 4
  else if s == "may" then some 5
  else if s == "june" || s == "jun" then some 6
  else if s == "july" || s == "jul" then some 7
  else if s == "august" || s == "aug" then some 8
  else if s == "september" || s == "sep" then some 9
  else if s == "october" || s == "oct" then some 10
  else if s == "november" || s == "nov" then some 11
  else if s == "december" || s == "dec" then some 12
  else none

/-- Split a cleaned sheet name into tokens at hyphens and spaces. -/
def splitAux (sep : Char → Bool) : List Char → List Char → List (List Char)
  | [], acc => [acc.reverse]
  | c :: rest, acc =>
    if sep c then acc.reverse :: splitAux sep rest []
    else splitAux sep rest (c :: acc)

/-- Split a cleaned sheet name into tokens at hyphens and spaces, dropping
empty pieces (the tokenization dateutil applies to such inputs). -/
def tokenize (s : String) : List String :=
  ((splitAux (fun c => c == '-' || c == ' ') s.data []).map String.mk).filter
    (fun t => !(t == ""))

/-- Model of `dateutil.parser.parse(s, dayfirst=True)` for the sheet-name
formats the script handles (`28-10-25`, `28-Oct-25`, a lone month name or
day number, ...).  `today` supplies the defaults dateutil takes from the
current date for components absent from the input; any unrecognized input
is a parse failure (`none`, standing for the raised `ParserError`). -/
def parseDayFirst (today : Date) (s : String) : Option Date :=
  match tokenize s with
  | [a, b, c] =>
    match parseNatToken a, parseNatToken c with
    | some d, some y =>
      match parseNatToken b with
      | some m =>
        if 1 ≤ d ∧ d ≤ 31 ∧ 1 ≤ m ∧ m ≤ 12 then some ⟨yearExpand y, m, d⟩ else none
      | none =>
        match monthFromName (pyLower b) with
        | some m => if 1 ≤ d ∧ d ≤ 31 then some ⟨yearExpand y, m, d⟩ else none
        | none => none
    | _, _ => none
  | [a] =>
    match parseNatToken a with
    | some n =>
      if 1 ≤ n ∧ n ≤ 31 then some ⟨today.year, today.month, n⟩ else none
    | none =>
      match monthFromName (pyLower a) with
      | some m => some ⟨today.year, m, today.day⟩
      | none => none
  | _ => none

/-- Zero-padded two-digit rendering, as `%m`/`%d` produce. -/
def pad2 (n : Nat) : String :=
  if n < 10 then "0" ++ toString n else toString n

/-- `strftime('%Y-%m-%d')`. -/
def formatISO (d : Date) : String :=
  toString d.year ++ "-" ++ pad2 d.month ++ "-" ++ pad2 d.day

/-- The `.strip()` and dot-to-hyphen normalization of lines 16-19. -/
def cleanName (sheet_name : String) : String :=
  replaceChar '.' '-' (pyStrip sheet_name)

/-- `convert_sheet_name_to_date` (lines 8-30): trim, replace dots with
hyphens, parse day-first; render `YYYY-MM-DD` on success and the
`PARSE_ERROR:` sentinel on failure.  `today` is the current date the
underlying parser reads for defaults. -/
def convert_sheet_name_to_date (today : Date) (sheet_name : String) : String :=
  let s := cleanName sheet_name
  match parseDayFirst today s with
  | some d => formatISO d
  | none => "PARSE_ERROR: " ++ s

/-! ### Extracted tables (the dataframes built by `process_sheet`)

A dataframe is modelled as its column labels plus one association list per
row from label to cell value, the shape `process_sheet` produces by
zipping the header labels with each sliced row. -/

/-- One dataframe row: column label ↦ cell value, in column order. -/
abbrev Row := List (String × Cell)

/-- A labeled table (dataframe). -/
structure Table where
  cols : List String
  rows : List Row
  deriving DecidableEq, Repr

/-- Value of column `c` in a row (first matching label), `none` if the row
has no such column. -/
def lookupRow (row : Row) (c : String) : Option Cell :=
  (List.find? (fun p => p.1 == c) row).map (fun p => p.2)

/-- pandas column assignment `df[name] = v` on one row: overwrite the value
at every existing entry labeled `name`, else append a new entry. -/
def setColRow (row : Row) (name : String) (v : Cell) : Row :=
  if row.any (fun p => p.1 == name) then
    row.map (fun p => if p.1 == name then (p.1, v) else p)
  else row ++ [(name, v)]

/-- pandas column assignment `df[name] = v` on a whole table: the column
keeps its position if it already exists, else is appended at the end; every
row gets the single value `v`. -/
def setCol (t : Table) (name : String) (v : Cell) : Table where
  cols := if t.cols.contains name then t.cols else t.cols ++ [name]
  rows := t.rows.map (fun row => setColRow row name v)

/-! ### Sheet extractor `process_sheet` (lines 94-181) -/

/-- The slice `df.iloc[r, start_col:end_col+1]` of one row. -/
def slicedRow (g : Grid) (r start_col end_col : Nat) : List Cell :=
  (List.range' start_col (end_col + 1 - start_col)).map (fun c => g.cell r c)

/-- Whether the blank-row cleaning of lines 157-159 drops a row:
`dropna(how='all')` drops all-NaN rows, and the second filter drops rows
whose every cell's `str(...)` form strips to the empty string.  (NaN
renders as `"nan"` under `astype(str)`, so it does not satisfy the second
filter.) -/
def dropRow (cells : List Cell) : Bool :=
  cells.all (fun c => c == Cell.nan) || cells.all (fun c => pyStrip (cellStr c) == "")

/-- The two sequential row filters of lines 157-159. -/
def cleanRows (rows : List (List Cell)) : List (List Cell) :=
  ((rows.filter (fun r => !(r.all (fun c => c == Cell.nan)))).filter
    (fun r => !(r.all (fun c => pyStrip (cellStr c) == ""))))

/-- Trimmed header labels `df.iloc[header_row, start_col:end_col+1]`
(lines 147-148). -/
def headerLabels (g : Grid) (header_row start_col end_col : Nat) : List String :=
  (List.range' start_col (end_col + 1 - start_col)).map
    (fun c => pyStrip (cellStr (g.cell header_row c)))

/-- `process_sheet` (lines 94-181) on an already-loaded grid.  Note the
slip at line 140: `data_end = total_row` re-executes unconditionally, so in
the fallback branch (`total_row is None`) `data_end` becomes `None` and the
comparison `data_start >= data_end` at line 142 raises `TypeError`, which
the handler at line 179 absorbs into a skip (`return None`).  The fallback
branch therefore never extracts, which the `some _ => none` arm records. -/
def process_sheet (g : Grid) (fileName sheetName : String) (today : Date) :
    Option Table :=
  match find_header_row g with
  | none => none
  | some (header_row, start_col) =>
    match find_sample_col g header_row start_col with
    | none => none
    | some end_col =>
      match find_total_row g header_row start_col end_col with
      | none =>
        match find_last_data_row g header_row start_col end_col with
        | none => none
        | some _ => none
      | some total_row =>
        let data_start := header_row + 1
        let data_end := total_row
        if data_end ≤ data_start then none
        else
          let headers := headerLabels g header_row start_col end_col
          let body := cleanRows
            ((List.range' data_start (data_end - data_start)).map
              (fun r => slicedRow g r start_col end_col))
          if body.length = 0 then none
          else
            let t : Table := ⟨headers, body.map (fun cells => headers.zip cells)⟩
            some (setCol
              (setCol (setCol t "Source_File" (Cell.str fileName))
                "Sheet_Name" (Cell.str sheetName))
              "Date" (Cell.str (convert_sheet_name_to_date today sheetName)))

/-! ### Batch combiner `combine_excel_files` (lines 184-252) -/

/-- The three metadata column labels, in the fixed order of line 240. -/
def metadataCols : List String := ["Source_File", "Sheet_Name", "Date"]

/-- Column union in first-encountered order, as `pd.concat` produces for
frames with differing columns. -/
def unionCols (tables : List Table) : List String :=
  tables.foldl (fun acc t => t.cols.foldl (fun a c => if a.contains c then a else a ++ [c]) acc) []

/-- One source row re-expressed over the combined column list: columns the
source table lacks are filled with NaN, as `pd.concat` does. -/
def combineRow (cols : List String) (row : Row) : Row :=
  cols.map (fun c => (c, (lookupRow row c).getD Cell.nan))

/-- `pd.concat(all_dataframes, ignore_index=True)` followed by the
metadata-to-the-end reorder of lines 239-242. -/
def combine (tables : List Table) : Table :=
  let u := unionCols tables
  let finalCols := u.filter (fun c => !(metadataCols.contains c)) ++ metadataCols
  ⟨finalCols, (tables.map (fun t => t.rows.map (combineRow finalCols))).flatten⟩

/-- A workbook on disk: either unreadable (`pd.ExcelFile` raises, the file
is skipped whole) or a list of named sheets, each already materialized as a
grid. -/
inductive FileData where
  | unreadable
  | readable (sheets : List (String × Grid))

/-- A file the glob returned. -/
structure XFile where
  name : String
  data : FileData

/-- All tables collected by the per-file, per-sheet loop of lines 207-228. -/
def collectTables (files : List XFile) (today : Date) : List Table :=
  (files.map (fun f =>
    match f.data with
    | .unreadable => []
    | .readable sheets =>
      sheets.filterMap (fun p => process_sheet p.2 f.name p.1 today))).flatten

/-- Terminal outcome of `combine_excel_files`: the two early returns of
lines 200-202 and 230-232, or a written output workbook. -/
inductive Outcome where
  | noFiles
  | noValidData
  | written (t : Table)
  deriving DecidableEq

/-- `combine_excel_files` (lines 184-252): stop with "no files found" on an
empty glob, stop with "no valid data" when every sheet was skipped, else
write the combined table. -/
def combine_excel_files (files : List XFile) (today : Date) : Outcome :=
  if files.isEmpty then .noFiles
  else if (collectTables files today).isEmpty then .noValidData
  else .written (combine (collectTables files today))

/-! ### Spec-side variant and concrete instances used in the verification -/

/-- The terminator search as the spec's design note describes it ("full-row":
every column of the grid, not only the declared span).  This follows the
spec's words, for comparison against `find_total_row`, which is translated
from the source. -/
def find_total_row_fullrow (g : Grid) (start_row : Nat) : Option Nat :=
  findIdx (fun r => (findIdx (fun c => totalMatch (g.cell r c)) 0 g.ncols).isSome)
    (start_row + 1) g.nrows

/-- A reference current date for concrete evaluations. -/
def d0 : Date := ⟨2026, 10, 12⟩

/-- A sheet with a header, one data row, and no terminator row: the
fallback locator applies. -/
def gFallback : Grid := Grid.ofLists [
  [.str "Sl. No.", .str "Name", .str "Sample"],
  [.str "1", .str "Alice", .str "x"]] 3

/-- A sheet with junk above the header (header at row 1), two data rows, a
fully blank row, and a `Total` terminator at row 5. -/
def gT : Grid := Grid.ofLists [
  [.str "junk", .nan, .nan],
  [.str "Sl. No.", .str "Name", .str "Sample"],
  [.str "1", .str "Alice", .str "x"],
  [.nan, .nan, .nan],
  [.str "2", .str "Bob", .str "y"],
  [.str "Total", .nan, .nan]] 3

/-- A sheet whose only data row mixes a missing (NaN) cell with an
empty-string cell. -/
def g4 : Grid := Grid.ofLists [
  [.str "Sl. No.", .str "Sample"],
  [.nan, .str ""],
  [.str "Total", .nan]] 2

/-- A sheet whose only terminator keyword sits outside the declared column
span `[0, 1]` (in column 2, right of the `Sample` column). -/
def g3 : Grid := Grid.ofLists [
  [.str "Sl. No.", .str "Sample", .nan],
  [.str "1", .str "x", .str "Total"]] 3

/-- Same as `g3` on the declared span `[0, 1]`, different outside it. -/
def g3b : Grid := Grid.ofLists [
  [.str "Sl. No.", .str "Sample", .str "zzz"],
  [.str "1", .str "x", .nan]] 3

/-- A sheet whose header labels include the metadata name `Source_File`,
with original data (`SECRET`) under it. -/
def gMeta : Grid := Grid.ofLists [
  [.str "Sl. No.", .str "Source_File", .str "Sample"],
  [.str "1", .str "SECRET", .str "x"],
  [.str "Total", .nan, .nan]] 3

/-- The table `process_sheet` extracts from `gMeta`. -/
def gMetaT : Table := (process_sheet gMeta "f.xlsx" "s1" d0).getD ⟨[], []⟩

/-- The table `process_sheet` extracts from `gT`. -/
def gTT : Table := (process_sheet gT "f.xlsx" "28-10-25" d0).getD ⟨[], []⟩

/-- File A of the column-union example: columns `Sl. No., Name, Sample`. -/
def gA : Grid := Grid.ofLists [
  [.str "Sl. No.", .str "Name", .str "Sample"],
  [.str "1", .str "Alice", .str "x"],
  [.str "Total", .nan, .nan]] 3

/-- File B of the column-union example: columns
`Sl. No., Name, Remarks, Sample`. -/
def gB : Grid := Grid.ofLists [
  [.str "Sl. No.", .str "Name", .str "Remarks", .str "Sample"],
  [.str "2", .str "Bob", .str "ok", .str "y"],
  [.str "Total", .nan, .nan, .nan]] 4

/-- File A's extracted table. -/
def exA : Table := (process_sheet gA "A.xlsx" "s1" d0).getD ⟨[], []⟩

/-- File B's extracted table. -/
def exB : Table := (process_sheet gB "B.xlsx" "s1" d0).getD ⟨[], []⟩

/-- First extracted row of file A. -/
def rowA : Row := exA.rows.getD 0 []

/-- A directory with one unreadable workbook. -/
def filesUnreadable : List XFile := [⟨"a.xlsx", .unreadable⟩]

/-- A directory with one workbook holding one extractable sheet. -/
def filesGood : List XFile := [⟨"a.xlsx", .readable [("28-10-25", gT)]⟩]

/-! ### Properties of the scan combinators -/

theorem scanFirst_eq_none {f : Nat → Option β} {k i : Nat} :
    scanFirst f i k = none ↔ ∀ j, i ≤ j → j < i + k → f j = none := by
  induction k generalizing i with
  | zero => simp [scanFirst]; omega
  | succ k ih =>
    unfold scanFirst
    cases hfi : f i with
    | some b =>
      simp only [reduceCtorEq, false_iff, not_forall]
      exact ⟨i, le_refl i, by omega, by simp [hfi]⟩
    | none =>
      simp only [ih]
      constructor
      · intro h j hij hjk
        rcases Nat.eq_or_lt_of_le hij with rfl | hlt
        · exact hfi
        · exact h j hlt (by omega)
      · intro h j hij hjk
        exact h j (by omega) (by omega)

theorem scanFirst_eq_some {f : Nat → Option β} {k i : Nat} {b : β} :
    scanFirst f i k = some b ↔
      ∃ j, i ≤ j ∧ j < i + k ∧ f j = some b ∧ ∀ j', i ≤ j' → j' < j → f j' = none := by
  induction k generalizing i with
  | zero => simp [scanFirst]; omega
  | succ k ih =>
    unfold scanFirst
    cases hfi : f i with
    | some b' =>
      simp only [Option.some.injEq]
      constructor
      · rintro rfl
        exact ⟨i, le_refl i, by omega, hfi, fun j' h1 h2 => absurd (lt_of_le_of_lt h1 h2) (lt_irrefl i)⟩
      · rintro ⟨j, hij, hjk, hfj, hmin⟩
        rcases Nat.eq_or_lt_of_le hij with rfl | hlt
        · rw [hfi] at hfj; exact (Option.some.injEq _ _).mp hfj
        · exact absurd hfi (by simp [hmin i (le_refl i) hlt])
    | none =>
      rw [ih]
      constructor
      · rintro ⟨j, hij, hjk, hfj, hmin⟩
        refine ⟨j, by omega, by omega, hfj, fun j' h1 h2 => ?_⟩
        rcases Nat.eq_or_lt_of_le h1 with rfl | hlt
        · exact hfi
        · exact hmin j' hlt h2
      · rintro ⟨j, hij, hjk, hfj, hmin⟩
        have hji : i < j := by
          rcases Nat.eq_or_lt_of_le hij with rfl | hlt
          · rw [hfi] at hfj; exact absurd hfj (by simp)
          · exact hlt
        exact ⟨j, hji, by omega, hfj, fun j' h1 h2 => hmin j' (by omega) h2⟩

theorem scanFirst_congr {f f' : Nat → Option β} {k i : Nat}
    (h : ∀ j, i ≤ j → j < i + k → f j = f' j) :
    scanFirst f i k = scanFirst f' i k := by
  induction k generalizing i with
  | zero => rfl
  | succ k ih =>
    unfold scanFirst
    rw [h i (le_refl i) (by omega)]
    cases f' i with
    | some b => rfl
    | none => exact ih (fun j h1 h2 => h j (by omega) (by omega))

theorem findIdx_eq_some {p : Nat → Bool} {i n j : Nat} :
    findIdx p i n = some j ↔
      i ≤ j ∧ j < n ∧ p j = true ∧ ∀ j', i ≤ j' → j' < j → p j' = false := by
  unfold findIdx
  rw [scanFirst_eq_some]
  constructor
  · rintro ⟨j', h1, h2, h3, h4⟩
    have hpj : p j' = true := by
      by_cases hp : p j' = true
      · exact hp
      · simp [hp] at h3
    have : j' = j := by simp [hpj] at h3; exact h3
    subst this
    refine ⟨h1, by omega, hpj, fun j'' ha hb => ?_⟩
    have := h4 j'' ha hb
    by_cases hp : p j'' = true
    · simp [hp] at this
    · simpa using hp
  · rintro ⟨h1, h2, h3, h4⟩
    refine ⟨j, h1, by omega, by simp [h3], fun j' ha hb => by simp [h4 j' ha hb]⟩

theorem findIdx_eq_none {p : Nat → Bool} {i n : Nat} :
    findIdx p i n = none ↔ ∀ j, i ≤ j → j < n → p j = false := by
  unfold findIdx
  rw [scanFirst_eq_none]
  constructor
  · intro h j h1 h2
    have := h j h1 (by omega)
    by_cases hp : p j = true
    · simp [hp] at this
    · simpa using hp
  · intro h j h1 h2
    simp [h j h1 (by omega)]

theorem findIdx_congr {p p' : Nat → Bool} {i n : Nat}
    (h : ∀ j, i ≤ j → j < n → p j = p' j) :
    findIdx p i n = findIdx p' i n := by
  unfold findIdx
  exact scanFirst_congr (fun j h1 h2 => by rw [h j h1 (by omega)])

theorem scanLast_congr {p p' : Nat → Bool} {k i : Nat} {last : Option Nat}
    (h : ∀ j, i ≤ j → j < i + k → p j = p' j) :
    scanLast p i k last = scanLast p' i k last := by
  induction k generalizing i last with
  | zero => rfl
  | succ k ih =>
    unfold scanLast
    rw [h i (le_refl i) (by omega)]
    have hrest : ∀ j, i + 1 ≤ j → j < i + 1 + k → p j = p' j :=
      fun j h1 h2 => h j (by omega) (by omega)
    cases p' i with
    | true => exact ih hrest
    | false =>
      cases last with
      | some l => rfl
      | none => exact ih hrest

/-! ### Helper lemmas about tables and row cleaning -/

theorem length_filter_not (p : α → Bool) (l : List α) :
    (l.filter (fun a => !(p a))).length = l.length - (l.filter p).length := by
  have h := List.length_eq_length_filter_add (l := l) p
  omega

theorem cleanRows_eq_filter (rows : List (List Cell)) :
    cleanRows rows = rows.filter (fun r => !(dropRow r)) := by
  unfold cleanRows dropRow
  rw [List.filter_filter]
  congr 1
  funext r
  cases r.all (fun c => c == Cell.nan) <;>
    cases r.all (fun c => pyStrip (cellStr c) == "") <;> rfl

theorem setCol_rows_length (t : Table) (name : String) (v : Cell) :
    (setCol t name v).rows.length = t.rows.length := by
  simp [setCol]

theorem mem_setColRow {row : Row} {name : String} {v : Cell} {p : String × Cell}
    (hp : p ∈ setColRow row name v) :
    (p.1 = name → p.2 = v) ∧ (p.1 ≠ name → p ∈ row) := by
  unfold setColRow at hp
  by_cases hany : row.any (fun q => q.1 == name)
  · rw [if_pos hany] at hp
    rcases List.mem_map.mp hp with ⟨q, hq, hqp⟩
    by_cases hqn : q.1 = name
    · rw [if_pos (by simp [hqn])] at hqp
      subst hqp
      exact ⟨fun _ => rfl, fun h => absurd hqn h⟩
    · rw [if_neg (by simp [hqn])] at hqp
      subst hqp
      exact ⟨fun h => absurd h hqn, fun _ => hq⟩
  · rw [if_neg hany] at hp
    rcases List.mem_append.mp hp with hq | hq
    · have hnone : ∀ q ∈ row, ¬(q.1 = name) := by
        intro q hqmem hqeq
        exact hany (List.any_eq_true.mpr ⟨q, hqmem, by simp [hqeq]⟩)
      exact ⟨fun h => absurd h (hnone p hq), fun _ => hq⟩
    · have : p = (name, v) := by simpa using hq
      subst this
      exact ⟨fun _ => rfl, fun h => absurd rfl h⟩

theorem mem_rows_setCol {t0 : Table} {name : String} {v : Cell} {row : Row}
    (h : row ∈ (setCol t0 name v).rows) :
    ∃ r0 ∈ t0.rows, row = setColRow r0 name v := by
  rcases List.mem_map.mp h with ⟨r0, hr0, heq⟩
  exact ⟨r0, hr0, heq.symm⟩

theorem lookupRow_combineRow (cols : List String) (row : Row) (c : String)
    (hc : c ∈ cols) :
    lookupRow (combineRow cols row) c = some ((lookupRow row c).getD Cell.nan) := by
  induction cols with
  | nil => cases hc
  | cons c' rest ih =>
    by_cases h : c' = c
    · subst h
      simp [combineRow, lookupRow, List.find?]
    · rcases List.mem_cons.mp hc with rfl | hmem
      · exact absurd rfl h
      · have : (c' == c) = false := by simp [h]
        simpa [combineRow, lookupRow, List.find?, this] using ih hmem

/-! ### The claims -/

/-- C1: the claim (and spec §4.5) say that when no terminator row exists
but the fallback locator finds a last-data row L, extraction proceeds with
`data_end = fallback_row + 1`.  The code contradicts this: line 140
(`data_end = total_row`) re-runs unconditionally after the fallback branch
computed `data_end = last_data_row + 1`, so `data_end` becomes `None`, the
comparison at line 142 raises `TypeError`, and the handler at line 179
skips the sheet.  On the concrete sheet `gFallback` (header at row 0, one
data row, no terminator) the fallback locator succeeds with row 1, yet
`process_sheet` returns no table. -/
theorem claim_C1 :
    find_header_row gFallback = some (0, 0) ∧
    find_total_row gFallback 0 0 2 = none ∧
    find_last_data_row gFallback 0 0 2 = some 1 ∧
    process_sheet gFallback "f.xlsx" "sheet1" d0 = none := by decide

/-- C3 counterexample: the claim says the terminator locator scans every
column of the grid.  On `g3` the only terminator keyword (`Total`) sits in
column 2, outside the declared span `[0, 1]`: the full-row search the
claim describes finds it at row 1, but the source's `find_total_row`
returns `none`. -/
theorem claim_C3_counterexample :
    totalMatch (g3.cell 1 2) = true ∧
    find_total_row_fullrow g3 0 = some 1 ∧
    find_total_row g3 0 0 1 = none := by decide

/-- C3 (amended): both the terminator locator and the fallback locator
examine only the declared column span `[start_col, end_col]` — their
results are unchanged by arbitrary modifications to cells outside that
span. -/
theorem claim_C3_amended (g g' : Grid) (H s e : Nat)
    (hn : g.nrows = g'.nrows)
    (hc : ∀ r, r < g.nrows → ∀ c, c < e + 1 → s ≤ c → g.cell r c = g'.cell r c) :
    find_total_row g H s e = find_total_row g' H s e ∧
    find_last_data_row g H s e = find_last_data_row g' H s e := by
  have hrowTotal : ∀ r, r < g.nrows → rowHasTotal g r s e = rowHasTotal g' r s e := by
    intro r hr
    unfold rowHasTotal
    rw [findIdx_congr (fun c h1 h2 => by rw [hc r hr c h2 h1])]
  have hrowData : ∀ r, r < g.nrows → rowHasData g r s e = rowHasData g' r s e := by
    intro r hr
    unfold rowHasData
    rw [findIdx_congr (fun c h1 h2 => by rw [hc r hr c h2 h1])]
  constructor
  · unfold find_total_row
    rw [← hn]
    exact findIdx_congr (fun r h1 h2 => hrowTotal r h2)
  · unfold find_last_data_row
    rw [← hn]
    exact scanLast_congr (fun r h1 h2 => hrowData r (by omega))

/-- C3 amended, witnessed on `g3` and `g3b`, which agree on the span
`[0, 1]` and differ in column 2. -/
theorem claim_C3_amended_witness :
    find_total_row g3 0 0 1 = find_total_row g3b 0 0 1 ∧
    find_last_data_row g3 0 0 1 = find_last_data_row g3b 0 0 1 :=
  claim_C3_amended g3 g3b 0 0 1 (by decide) (by decide)

/-- C4 counterexample: the claim says a data row mixing missing-value
(NaN) cells with empty-string cells is dropped (so `g4`, whose only data
row is `[NaN, ""]`, would be skipped as all-blank).  In the code,
`dropna(how='all')` keeps the row (not all cells are NaN) and the
empty-string filter keeps it too (the NaN cell renders as `"nan"` under
`astype(str)`), so the row survives into the extracted table. -/
theorem claim_C4_counterexample :
    dropRow [Cell.nan, Cell.str ""] = false ∧
    (process_sheet g4 "f.xlsx" "s1" d0).map (fun t => t.rows) =
      some [[("Sl. No.", Cell.nan), ("Sample", Cell.str ""),
             ("Source_File", Cell.str "f.xlsx"), ("Sheet_Name", Cell.str "s1"),
             ("Date", Cell.str "PARSE_ERROR: s1")]] := by decide

/-- C4 (amended): the cleaning step of lines 154-159 drops a sliced data
row iff every cell is missing (NaN), or every cell's textual form trims to
the empty string; a missing cell renders as the non-empty text `"nan"`, so
a row mixing missing cells with empty-string cells is kept, not dropped. -/
theorem claim_C4_amended :
    (∀ rows, cleanRows rows = rows.filter (fun r => !(dropRow r))) ∧
    (∀ cells : List Cell, dropRow cells = true ↔
      (∀ c ∈ cells, c = Cell.nan) ∨ (∀ c ∈ cells, pyStrip (cellStr c) = "")) := by
  refine ⟨cleanRows_eq_filter, fun cells => ?_⟩
  unfold dropRow
  simp [List.all_eq_true]

/-- C4 amended, applied to the mixed row of the counterexample: it is kept
by the cleaning step. -/
theorem claim_C4_amended_witness :
    cleanRows [[Cell.nan, Cell.str ""]] = [[Cell.nan, Cell.str ""]] := by
  rw [claim_C4_amended.1]
  decide

/-- C5: the date deriver trims the sheet name, replaces dots with hyphens
and parses day-first, for any current date the underlying parser might
read: `convert("28-10-25") = "2025-10-28"`, `convert("28.10.25") =
"2025-10-28"`, `convert("not a date") = "PARSE_ERROR: not a date"`, and
any parse failure yields the `PARSE_ERROR:` sentinel on the cleaned name
instead of an exception. -/
theorem claim_C5 (today : Date) :
    convert_sheet_name_to_date today "28-10-25" = "2025-10-28" ∧
    convert_sheet_name_to_date today "28.10.25" = "2025-10-28" ∧
    convert_sheet_name_to_date today "not a date" = "PARSE_ERROR: not a date" ∧
    (∀ name, parseDayFirst today (cleanName name) = none →
      convert_sheet_name_to_date today name = "PARSE_ERROR: " ++ cleanName name) := by
  refine ⟨rfl, rfl, rfl, fun name h => ?_⟩
  simp only [convert_sheet_name_to_date, h]

/-- C5 witnessed at the reference date, with the parse-failure hypothesis
discharged on the input `"not a date"`. -/
theorem claim_C5_witness :
    convert_sheet_name_to_date d0 "28-10-25" = "2025-10-28" ∧
    convert_sheet_name_to_date d0 "not a date" = "PARSE_ERROR: " ++ cleanName "not a date" :=
  ⟨(claim_C5 d0).1, (claim_C5 d0).2.2.2 "not a date" (by decide)⟩

/-- C10: the date deriver is not a pure function of the sheet name — for
the partial input `"October"` the parser fills the missing day and year
from the current date, so the same sheet name converts differently under
two different current dates. -/
theorem claim_C10 :
    convert_sheet_name_to_date ⟨2025, 1, 15⟩ "October" ≠
      convert_sheet_name_to_date ⟨2026, 3, 7⟩ "October" := by decide

/-- C2: for a sheet with header row `H` (header column `s`, end column
`e`) and terminator row `T` found by the terminator locator, the extracted
table has exactly `(T − H − 1)` rows minus the rows of the span
`H+1 .. T−1` removed by the blank-row cleaning; the terminator row itself
is excluded. -/
theorem claim_C2 (g : Grid) (fn sn : String) (td : Date) (H s e T : Nat) (t : Table)
    (h1 : find_header_row g = some (H, s))
    (h2 : find_sample_col g H s = some e)
    (h3 : find_total_row g H s e = some T)
    (h4 : process_sheet g fn sn td = some t) :
    t.rows.length =
      (T - H - 1) -
        ((List.range' (H + 1) (T - H - 1)).filter
          (fun r => dropRow (slicedRow g r s e))).length := by
  simp only [process_sheet, h1, h2, h3] at h4
  by_cases hT : T ≤ H + 1
  · rw [if_pos hT] at h4
    exact absurd h4 (by simp)
  · rw [if_neg hT] at h4
    by_cases hb :
        (cleanRows ((List.range' (H + 1) (T - (H + 1))).map
          (fun r => slicedRow g r s e))).length = 0
    · rw [if_pos hb] at h4
      exact absurd h4 (by simp)
    · rw [if_neg hb] at h4
      rw [← Option.some.inj h4]
      rw [setCol_rows_length, setCol_rows_length, setCol_rows_length]
      simp only [List.length_map]
      rw [cleanRows_eq_filter, length_filter_not, List.filter_map]
      simp only [List.length_map, List.length_range', Nat.sub_sub]
      rfl

/-- C2 witnessed on `gT`: header at row 1, terminator at row 5, one blank
row inside the span, so 5 − 1 − 1 − 1 = 2 rows are extracted. -/
theorem claim_C2_witness :
    gTT.rows.length =
      (5 - 1 - 1) -
        ((List.range' (1 + 1) (5 - 1 - 1)).filter
          (fun r => dropRow (slicedRow gT r 0 2))).length :=
  claim_C2 gT "f.xlsx" "28-10-25" d0 1 0 2 5 gTT
    (by decide) (by decide) (by decide) (by decide)

/-- C6: the combined table's columns are the union of all tables' label
sets, non-metadata columns first in first-encountered order followed by
`Source_File`, `Sheet_Name`, `Date` in that fixed order; every source row
reappears in the combined rows with NaN filled in for columns its table
lacks and its own values kept for columns it has.  On the concrete
example, file A's table (columns `Sl. No., Name, Sample` plus metadata)
combined with file B's (additionally `Remarks`) yields the claimed column
list, and A's row is blank in `Remarks`. -/
theorem claim_C6 :
    (∀ tables, (combine tables).cols =
      (unionCols tables).filter (fun c => !(metadataCols.contains c)) ++ metadataCols) ∧
    (∀ tables t row, t ∈ tables → row ∈ t.rows →
      combineRow (combine tables).cols row ∈ (combine tables).rows ∧
      ∀ c, c ∈ (combine tables).cols →
        lookupRow (combineRow (combine tables).cols row) c =
          some ((lookupRow row c).getD Cell.nan)) ∧
    (combine [exA, exB]).cols =
      ["Sl. No.", "Name", "Sample", "Remarks",
       "Source_File", "Sheet_Name", "Date"] ∧
    (∀ rA ∈ exA.rows, lookupRow rA "Remarks" = none) ∧
    lookupRow (combineRow (combine [exA, exB]).cols rowA) "Remarks" = some Cell.nan := by
  refine ⟨fun tables => rfl, ?_, by decide, by decide, by decide⟩
  intro tables t row ht hrow
  constructor
  · have h1 : t.rows.map (combineRow (combine tables).cols) ∈
        tables.map (fun t' => t'.rows.map (combineRow (combine tables).cols)) :=
      List.mem_map_of_mem _ ht
    exact List.mem_flatten.mpr ⟨_, h1, List.mem_map_of_mem _ hrow⟩
  · intro c hc
    exact lookupRow_combineRow _ row c hc

/-- C6 witnessed on the two example tables: file A's first row appears in
the combined rows, with `Remarks` filled as missing. -/
theorem claim_C6_witness :
    combineRow (combine [exA, exB]).cols rowA ∈ (combine [exA, exB]).rows ∧
    lookupRow (combineRow (combine [exA, exB]).cols rowA) "Remarks" =
      some ((lookupRow rowA "Remarks").getD Cell.nan) := by
  obtain ⟨hmem, hval⟩ := claim_C6.2.1 [exA, exB] exA rowA (by decide) (by decide)
  exact ⟨hmem, hval "Remarks" (by decide)⟩

/-- C7: the batch combiner writes an output only when extraction completed
with at least one collected table: an empty glob stops with "no files
found", a run in which every sheet was skipped stops with "no valid data",
and a written output is exactly the combination of the (nonempty)
collected tables. -/
theorem claim_C7 (files : List XFile) (td : Date) :
    (files = [] → combine_excel_files files td = Outcome.noFiles) ∧
    (files ≠ [] → collectTables files td = [] →
      combine_excel_files files td = Outcome.noValidData) ∧
    (∀ t, combine_excel_files files td = Outcome.written t →
      collectTables files td ≠ [] ∧ t = combine (collectTables files td)) := by
  refine ⟨?_, ?_, ?_⟩
  · rintro rfl
    rfl
  · intro hne hempty
    unfold combine_excel_files
    rw [if_neg (by simpa using hne), if_pos (by simp [hempty])]
  · intro t h
    unfold combine_excel_files at h
    by_cases h1 : files.isEmpty
    · rw [if_pos h1] at h
      exact Outcome.noConfusion h
    · rw [if_neg h1] at h
      by_cases h2 : (collectTables files td).isEmpty
      · rw [if_pos h2] at h
        exact Outcome.noConfusion h
      · rw [if_neg h2] at h
        exact ⟨by simpa using h2, (Outcome.written.inj h).symm⟩

/-- C7 witnessed on three concrete directories: empty, one unreadable
workbook, and one workbook with an extractable sheet. -/
theorem claim_C7_witness :
    combine_excel_files [] d0 = Outcome.noFiles ∧
    combine_excel_files filesUnreadable d0 = Outcome.noValidData ∧
    (collectTables filesGood d0 ≠ [] ∧
      combine (collectTables filesGood d0) = combine (collectTables filesGood d0)) :=
  ⟨(claim_C7 [] d0).1 rfl,
   (claim_C7 filesUnreadable d0).2.1 (by simp [filesUnreadable]) (by decide),
   (claim_C7 filesGood d0).2.2 (combine (collectTables filesGood d0)) (by decide)⟩

/-- C8: the header locator examines only rows `0 .. min(20, nrows)-1`, and
returns the position of the first header-marker cell in left-to-right,
top-to-bottom scan order; when no cell in that region matches, it reports
not-found and `process_sheet` skips the sheet. -/
theorem claim_C8 (g : Grid) :
    (∀ r c, find_header_row g = some (r, c) →
      r < min 20 g.nrows ∧ c < g.ncols ∧ isHeaderCell g r c = true ∧
      (∀ r', r' < r → ∀ c', c' < g.ncols → isHeaderCell g r' c' = false) ∧
      (∀ c', c' < c → isHeaderCell g r c' = false)) ∧
    (find_header_row g = none →
      (∀ r, r < min 20 g.nrows → ∀ c, c < g.ncols → isHeaderCell g r c = false) ∧
      ∀ fn sn td, process_sheet g fn sn td = none) := by
  constructor
  · intro r c h
    unfold find_header_row at h
    rw [scanFirst_eq_some] at h
    obtain ⟨j, hj0, hjlt, hfj, hmin⟩ := h
    cases hfi : findIdx (fun c' => isHeaderCell g j c') 0 g.ncols with
    | none =>
      rw [hfi] at hfj
      exact absurd hfj (by simp)
    | some c0 =>
      rw [hfi] at hfj
      have hjc : j = r ∧ c0 = c := by
        constructor <;> · injection hfj with h'; rw [Prod.mk.injEq] at h'; tauto
      obtain ⟨rfl, rfl⟩ := hjc
      obtain ⟨-, hclt, hcell, hcmin⟩ := findIdx_eq_some.mp hfi
      refine ⟨by omega, hclt, hcell, ?_, fun c' hc' => hcmin c' (Nat.zero_le _) hc'⟩
      intro r' hr' c' hc'
      have hnone := hmin r' (Nat.zero_le _) hr'
      cases hfi' : findIdx (fun c'' => isHeaderCell g r' c'') 0 g.ncols with
      | none => exact findIdx_eq_none.mp hfi' c' (Nat.zero_le _) hc'
      | some c1 =>
        rw [hfi'] at hnone
        exact absurd hnone (by simp)
  · intro h
    have hforall :
        ∀ j, 0 ≤ j → j < 0 + min 20 g.nrows →
          (findIdx (fun c => isHeaderCell g j c) 0 g.ncols).map (fun c => (j, c)) = none := by
      have h' := h
      unfold find_header_row at h'
      rw [scanFirst_eq_none] at h'
      exact h'
    refine ⟨?_, ?_⟩
    · intro r hr c hc
      have hmap := hforall r (Nat.zero_le _) (by omega)
      cases hfi : findIdx (fun c' => isHeaderCell g r c') 0 g.ncols with
      | none => exact findIdx_eq_none.mp hfi c (Nat.zero_le _) hc
      | some c1 =>
        rw [hfi] at hmap
        exact absurd hmap (by simp)
    · intro fn sn td
      simp [process_sheet, h]

/-- C8 witnessed on `gT`: the header marker is found at row 1, column 0,
inside the searched region. -/
theorem claim_C8_witness :
    1 < min 20 gT.nrows ∧ 0 < gT.ncols ∧ isHeaderCell gT 1 0 = true :=
  have h := (claim_C8 gT).1 1 0 (by decide)
  ⟨h.1, h.2.1, h.2.2.1⟩

/-- C9: if a sheet's header labels include a metadata name (`Source_File`,
`Sheet_Name` or `Date`), the metadata-appending step overwrites every value
under that label with the metadata value, so no original data of such a
column reaches the output; and in the combined table each metadata column
appears exactly once, in the trailing metadata position. -/
theorem claim_C9 :
    (∀ g fn sn td t, process_sheet g fn sn td = some t →
      ∀ row ∈ t.rows, ∀ p ∈ row,
        (p.1 = "Source_File" → p.2 = Cell.str fn) ∧
        (p.1 = "Sheet_Name" → p.2 = Cell.str sn) ∧
        (p.1 = "Date" → p.2 = Cell.str (convert_sheet_name_to_date td sn))) ∧
    (∀ tables, ∀ m ∈ metadataCols,
      (combine tables).cols.count m = 1 ∧
      (combine tables).cols.drop ((combine tables).cols.length - 3) = metadataCols) := by
  constructor
  · intro g fn sn td t h row hrow p hp
    cases hfh : find_header_row g with
    | none =>
      simp only [process_sheet, hfh] at h
      exact Option.noConfusion h
    | some pr =>
      obtain ⟨H, s⟩ := pr
      simp only [process_sheet, hfh] at h
      cases hsc : find_sample_col g H s with
      | none =>
        simp only [hsc] at h
        exact Option.noConfusion h
      | some e =>
        simp only [hsc] at h
        cases htr : find_total_row g H s e with
        | none =>
          simp only [htr] at h
          cases hlr : find_last_data_row g H s e with
          | none =>
            simp only [hlr] at h
            exact Option.noConfusion h
          | some l =>
            simp only [hlr] at h
            exact Option.noConfusion h
        | some T =>
          simp only [htr] at h
          by_cases hT : T ≤ H + 1
          · rw [if_pos hT] at h
            exact absurd h (by simp)
          · rw [if_neg hT] at h
            by_cases hb :
                (cleanRows ((List.range' (H + 1) (T - (H + 1))).map
                  (fun r => slicedRow g r s e))).length = 0
            · rw [if_pos hb] at h
              exact absurd h (by simp)
            · rw [if_neg hb] at h
              rw [← Option.some.inj h] at hrow
              obtain ⟨r2, hr2, rfl⟩ := mem_rows_setCol hrow
              refine ⟨?_, ?_, ?_⟩
              · intro hpn
                have h3 := (mem_setColRow hp).2 (by rw [hpn]; decide)
                obtain ⟨r1, hr1, rfl⟩ := mem_rows_setCol hr2
                have h2 := (mem_setColRow h3).2 (by rw [hpn]; decide)
                obtain ⟨r0, hr0, rfl⟩ := mem_rows_setCol hr1
                exact (mem_setColRow h2).1 hpn
              · intro hpn
                have h3 := (mem_setColRow hp).2 (by rw [hpn]; decide)
                obtain ⟨r1, hr1, rfl⟩ := mem_rows_setCol hr2
                exact (mem_setColRow h3).1 hpn
              · intro hpn
                exact (mem_setColRow hp).1 hpn
  · intro tables m hm
    have hdrop : (combine tables).cols.drop ((combine tables).cols.length - 3) =
        metadataCols := by
      show (((unionCols tables).filter (fun c => !(metadataCols.contains c))) ++
          metadataCols).drop
        ((((unionCols tables).filter (fun c => !(metadataCols.contains c))) ++
          metadataCols).length - 3) = metadataCols
      rw [List.length_append]
      have h3 : metadataCols.length = 3 := rfl
      rw [h3, Nat.add_sub_cancel]
      exact List.drop_left _ _
    refine ⟨?_, hdrop⟩
    show (((unionCols tables).filter (fun c => !(metadataCols.contains c))) ++
        metadataCols).count m = 1
    rw [List.count_append]
    have h0 :
        (((unionCols tables).filter (fun c => !(metadataCols.contains c)))).count m = 0 := by
      rw [List.count_eq_zero]
      intro hmem
      have hpred := List.of_mem_filter hmem
      have hnm : m ∉ metadataCols := by simpa using hpred
      exact hnm hm
    rw [h0, Nat.zero_add]
    fin_cases hm <;> decide

/-- C9 witnessed on `gMeta`, whose header includes a `Source_File` label
above original data `SECRET`: in the extracted table the entry under that
label holds the file name, not the original data. -/
theorem claim_C9_witness :
    ((gMetaT.rows.getD 0 []).getD 1 ("", Cell.nan)).2 = Cell.str "f.xlsx" :=
  (claim_C9.1 gMeta "f.xlsx" "s1" d0 gMetaT (by decide)
    (gMetaT.rows.getD 0 []) (by decide)
    ((gMetaT.rows.getD 0 []).getD 1 ("", Cell.nan)) (by decide)).1 (by decide)

end ExcelCombiner
